/-
Verification of the wumpy library against its specification.

This file gives a shallow embedding, in Lean 4, of the parts of the wumpy
source tree that the verified properties speak about:

* `wumpy/interactions/commands/slash.py` — `Command` / `SubcommandGroup`
  invocation routing,
* `wumpy/interactions/components/component.py` — `Component` waiters,
* `wumpy/cache/in_memory/user.py` — `UserMemoryCache` / `MemberMemoryCache`,
* `wumpy/interactions/base.py` — `Interaction.respond` and
  `SelectInteractionValue`,
* `wumpy/interactions/_asgi.py` — `InteractionASGIApp` request gating,
* `wumpy/interactions/commands/context.py` — `UserCommand`,
* `wumpy/bot/_extension.py` — `Extension.load` / `Extension.unload`.

Python dictionaries are embedded either as association lists (when the code
iterates over them or tests emptiness) or as functions into `Option` (when
the code only indexes them).  Python `None` is `Option.none`; a function that
can raise is embedded with an explicit result type carrying the error case.
-/
import Mathlib

namespace Wumpy

/-! ### Slash commands (`wumpy/interactions/commands/slash.py`) -/

/-- The `ApplicationCommandOption` enum from `wumpy/interactions/base.py`. -/
inductive ApplicationCommandOption where
  | subcommand
  | subcommand_group
  | string
  | integer
  | boolean
  | user
  | channel
  | role
  | mentionable
  | number
deriving DecidableEq

/-- `CommandInteractionOption` from `wumpy/interactions/base.py`: `name`,
`type`, an optional scalar `value` (per the class docstring, `value` and
`options` are mutually exclusive: `options` is only sent when `type` is a
subcommand or subcommand group, in which case `value` is absent) and the
nested sub-options.  Scalar values are embedded as strings. -/
inductive CommandInteractionOption where
  | mk
    (name : String)
    (type : ApplicationCommandOption)
    (value : Option String)
    (options : List CommandInteractionOption)

/-- Accessor for the `name` attribute. -/
def CommandInteractionOption.name : CommandInteractionOption → String
  | .mk n _ _ _ => n

/-- Accessor for the `type` attribute. -/
def CommandInteractionOption.type : CommandInteractionOption → ApplicationCommandOption
  | .mk _ t _ _ => t

/-- Accessor for the `value` attribute. -/
def CommandInteractionOption.value : CommandInteractionOption → Option String
  | .mk _ _ v _ => v

/-- Accessor for the `options` attribute. -/
def CommandInteractionOption.options : CommandInteractionOption → List CommandInteractionOption
  | .mk _ _ _ o => o

/-- The tree of registered slash commands: a leaf `Command` (identified by
its optional `name`) or a `SubcommandGroup` whose `commands` dict maps
subcommand names to nested commands or groups.  The dict is embedded as an
association list in registration order. -/
inductive SlashCommand where
  | command (name : Option String)
  | group (name : String) (commands : List (String × SlashCommand))

/-- Outcome of invoking a command tree on an interaction's option list.
`invalidInput` is the `ValueError` raised when a subcommand group receives
no subcommand-typed option; `notFound` is the `LookupError` raised when the
looked-up key is not in `self.commands`; `called` records which leaf
`Command._inner_call` was reached and with which option list. -/
inductive InvokeResult where
  | invalidInput
  | notFound
  | called (name : Option String) (options : List CommandInteractionOption)

mutual

/-- `SubcommandGroup._inner_call` from `slash.py` (lines 167-188), together
with leaf dispatch.  For a group: `found` filters the received options to
those whose `type` is `subcommand` or `subcommand_group`; an empty `found`
raises `ValueError`; otherwise the code evaluates
`self.commands.get(found[0].value)` — note: the `value` attribute, not
`name` — and, when the lookup succeeds, recursively invokes the subcommand
with `found[0].options`.  A leaf records the call. -/
def SlashCommand.invoke : SlashCommand → List CommandInteractionOption → InvokeResult
  | .command name, options => .called name options
  | .group _ commands, options =>
    let found := options.filter fun o =>
      decide (o.type = ApplicationCommandOption.subcommand
        ∨ o.type = ApplicationCommandOption.subcommand_group)
    match found with
    | [] => .invalidInput
    | first :: _ => SlashCommand.commandsGet commands first.value first.options

/-- `self.commands.get(key)` followed by the `None` check and the recursive
`subcommand.invoke(...)` call.  `dict.get` with a `None` key never matches a
string key, so a `none` lookup key yields `notFound`. -/
def SlashCommand.commandsGet :
    List (String × SlashCommand) → Option String → List CommandInteractionOption → InvokeResult
  | [], _, _ => .notFound
  | (key, cmd) :: rest, lookupKey, options =>
    if lookupKey = some key then cmd.invoke options
    else SlashCommand.commandsGet rest lookupKey options

end

/-! ### Message components (`wumpy/interactions/components/component.py`) -/

/-- One entry of `Component._waiters`: a pair of the `check` predicate passed
to `Component.__call__` and the `Result` one-shot slot.  Interactions are
embedded as their integer ids; the `tag` distinguishes waiter identities. -/
structure Waiter where
  check : Nat → Bool
  tag : Nat

/-- The mutable state of a `Component`: its `_waiters` list (the persistent
`_callback` plays no role in the waiter properties). -/
structure ComponentState where
  _waiters : List Waiter

/-- Lines 73-74 of `Component.__call__`: construct a fresh `Result` and
append the `(check, event)` pair to `self._waiters`. -/
def componentCallRegister (s : ComponentState) (w : Waiter) : ComponentState :=
  ⟨s._waiters ++ [w]⟩

/-- The state change `Component.__call__` performs on `self._waiters` when
`anyio.fail_after` raises `TimeoutError` out of lines 76-77: the function
body (lines 67-77) contains no `except`/`finally` clause and no removal, so
the waiter list is left untouched while the error propagates. -/
def componentCallOnTimeout (s : ComponentState) : ComponentState :=
  s

/-- The waiter loop of `Component.handle_interaction` (lines 104-107):

    for index, (check, result) in enumerate(self._waiters):
        if check(interaction):
            result.set(interaction)
            self._waiters.pop(index)

CPython's list iterator keeps an internal cursor that advances by one per
yielded element and is unaffected by `pop`; `enumerate`'s index always
equals that cursor position, so `pop(index)` removes exactly the element
just yielded and the element that shifted into its place is never visited.
The embedding makes the cursor explicit: it returns the final value of
`self._waiters` and the list of waiters whose `Result` was set, in scan
order. -/
def handleInteractionWaiters (interaction : Nat) (waiters : List Waiter) (cursor : Nat) :
    List Waiter × List Waiter :=
  match h : waiters[cursor]? with
  | none => (waiters, [])
  | some w =>
    if w.check interaction then
      let rest := handleInteractionWaiters interaction (waiters.eraseIdx cursor) (cursor + 1)
      (rest.1, w :: rest.2)
    else
      handleInteractionWaiters interaction waiters (cursor + 1)
termination_by waiters.length - cursor
decreasing_by
  all_goals
    have hlt : cursor < waiters.length := by
      by_contra hge
      simp [List.getElem?_eq_none (Nat.le_of_not_lt hge)] at h
  · have : (waiters.eraseIdx cursor).length = waiters.length - 1 :=
      List.length_eraseIdx_of_lt hlt
    omega
  · omega

/-! ### In-memory cache (`wumpy/cache/in_memory/user.py`) -/

/-- An incoming user payload (`discord_typings.UserData`): the fields
`_store_user` reads.  Ids are embedded as naturals (the code converts them
with `int(...)` where it builds keys); `public_flags` is read with
`data.get('public_flags')`, hence optional. -/
structure UserData where
  id : Nat
  username : String
  discriminator : String
  public_flags : Option Nat
deriving DecidableEq

/-- Modelled from the spec: the `User` model of the `wumpy-models` package is
not under `src/`.  Per the spec's data model a User carries id, name,
discriminator and public flags. -/
structure User where
  id : Nat
  name : String
  discriminator : String
  public_flags : Option Nat
deriving DecidableEq

/-- Modelled from the spec: `User.from_data` (wumpy-models, not under
`src/`) constructs a fresh `User` from the payload's fields. -/
def User.from_data (data : UserData) : User :=
  { id := data.id
    name := data.username
    discriminator := data.discriminator
    public_flags := data.public_flags }

/-- Modelled from the spec: a `Member` wraps its `User` by reference plus
guild-scoped attributes (represented by the optional nickname); its id is
the wrapped user's id. -/
structure Member where
  user : User
  nick : Option String
deriving DecidableEq

/-- The member's id, delegated to the wrapped user. -/
def Member.id (m : Member) : Nat :=
  m.user.id

/-- An incoming guild-member payload (`discord_typings.GuildMemberData` with
the extra `guild_id` field, which may be absent — `_process_guild_member_add`
checks `'guild_id' not in data`). -/
structure GuildMemberData where
  guild_id : Option Nat
  user : UserData
  nick : Option String

/-- Modelled from the spec: `Member.from_user` (wumpy-models, not under
`src/`) builds a `Member` around an already-stored `User` plus the payload's
guild-scoped attributes. -/
def Member.from_user (user : User) (data : GuildMemberData) : Member :=
  { user := user, nick := data.nick }

/-- The combined state of `UserMemoryCache` and `MemberMemoryCache` (in the
source both are `BaseMemoryCache` mixins sharing `self`): the weak-value
user dict keyed by `int` user id, and the member dict keyed by the
`(guild_id, user_id)` pair. -/
structure MemoryCacheState where
  _users : Nat → Option User
  _members : Nat × Nat → Option Member

/-- `UserMemoryCache._store_user` (lines 20-36): look the payload's id up
in `self._users`; if a user is cached and its id, name, discriminator and
public flags all equal the payload's, return the cached instance with no
state change; otherwise construct `User.from_data(data)`, store it under
`int(data['id'])` and return it. -/
def _store_user (s : MemoryCacheState) (data : UserData) : User × MemoryCacheState :=
  match s._users data.id with
  | some user =>
    if user.id = data.id ∧ user.name = data.username
        ∧ user.discriminator = data.discriminator
        ∧ user.public_flags = data.public_flags then
      (user, s)
    else
      let fresh := User.from_data data
      (fresh, { s with _users := fun k => if k = data.id then some fresh else s._users k })
  | none =>
    let fresh := User.from_data data
    (fresh, { s with _users := fun k => if k = data.id then some fresh else s._users k })

/-- Result of a cache event handler: either a value, or the `ValueError`
raised when the payload lacks its required `guild_id`. -/
inductive CacheResult (α : Type) where
  | ok (value : α)
  | invalidInput
deriving DecidableEq

/-- `MemberMemoryCache._process_guild_member_add` (lines 47-56): require
`guild_id` in the payload (`ValueError` otherwise), store the payload's user
through `_store_user`, build the member and store it under
`(guild_id, member.id)`, returning `(None, member)`. -/
def _process_guild_member_add (s : MemoryCacheState) (data : GuildMemberData) :
    CacheResult ((Option Member × Member) × MemoryCacheState) :=
  match data.guild_id with
  | none => .invalidInput
  | some guild_id =>
    let stored := _store_user s data.user
    let member := Member.from_user stored.1 data
    .ok ((none, member),
      { stored.2 with
        _members := fun k =>
          if k = (guild_id, member.id) then some member else stored.2._members k })

/-- `MemberMemoryCache.get_member` (lines 76-77): plain lookup of
`(int(guild), int(user))` in `self._members`; never fails. -/
def get_member (s : MemoryCacheState) (guild : Nat) (user : Nat) : Option Member :=
  s._members (guild, user)

/-! ### Interaction responses (`wumpy/interactions/base.py`) -/

/-- A JSON value appearing in the `data` object that `Interaction.respond`
serializes.  Present `embeds`/`allowed_mentions`/`components` values are
kept abstract behind `raw` (their `.data()`/`.to_dict()` serialization is
outside every property below, which only exercises the branch where those
parameters are the `MISSING` sentinel). -/
inductive JsonValue where
  | str (s : String)
  | bool (b : Bool)
  | num (n : Nat)
  | raw (tag : Nat)
deriving DecidableEq

/-- The outgoing body of `Interaction.respond`: the literal response `type`
and the `data` object, an ordered key-value list mirroring Python's
insertion-ordered dict. -/
structure RespondBody where
  type : Nat
  data : List (String × JsonValue)
deriving DecidableEq

/-- `Interaction.respond` (lines 165-199).  Each keyword parameter is an
`Option`, `none` embedding the falsy `MISSING` sentinel default.  The code
builds the dict with keys `content`, `tts`, `embeds`, `allowed_mentions`,
`components` in that order, adds `flags = 1 << 6` when `ephemeral` is
truthy (`MISSING` and `False` are both falsy, so exactly when it is
`True`), and then drops every entry whose value `is MISSING`.  The
response type is 4 (`CHANNEL_MESSAGE_WITH_SOURCE`). -/
def Interaction.respond (content : Option String) (tts : Option Bool)
    (embeds : Option Nat) (allowed_mentions : Option Nat)
    (ephemeral : Option Bool) (components : Option Nat) : RespondBody :=
  let entries : List (String × Option JsonValue) :=
    [("content", content.map .str),
      ("tts", tts.map .bool),
      ("embeds", embeds.map .raw),
      ("allowed_mentions", allowed_mentions.map .raw),
      ("components", components.map .raw)]
  let entries :=
    if ephemeral = some true then entries ++ [("flags", some (.num 64))] else entries
  { type := 4
    data := entries.filterMap fun kv => kv.2.map fun v => (kv.1, v) }

/-! ### `SelectInteractionValue` (`wumpy/interactions/base.py`, lines 99-116) -/

/-- A select-option payload mapping: `label` and `value` are required
(`data['label']`, `data['value']`); the rest are read with `.get`.  The
emoji entry is an abstract payload dict, represented by a tag. -/
structure SelectOptionData where
  label : String
  value : String
  description : Option String
  emoji : Option Nat
  default : Option Bool
deriving DecidableEq

/-- A value the dynamically-typed `emoji` slot can hold after
`SelectInteractionValue.__init__` runs: the payload's emoji dict, or the
payload's boolean `default` flag. -/
inductive EmojiSlotValue where
  | emojiData (tag : Nat)
  | defaultFlag (b : Bool)
deriving DecidableEq

/-- The slots of a constructed `SelectInteractionValue`.  `emoji` holds
whatever the last assignment to `self.emoji` stored.  The `default` slot is
`Option (Option Bool)`: the outer `none` means the `__slots__` entry was
never assigned, so reading `self.default` raises `AttributeError`. -/
structure SelectInteractionValue where
  label : String
  value : String
  description : Option String
  emoji : Option EmojiSlotValue
  default : Option (Option Bool)
deriving DecidableEq

/-- `SelectInteractionValue.__init__` (lines 110-116), assignment by
assignment:

    self.label = data['label']
    self.value = data['value']
    self.description = data.get('description')
    self.emoji = data.get('emoji')
    self.emoji = data.get('default')

The final statement assigns `data.get('default')` to `self.emoji` again
(overwriting the emoji just stored); no statement assigns `self.default`. -/
def SelectInteractionValue.init (data : SelectOptionData) : SelectInteractionValue :=
  let s : SelectInteractionValue :=
    { label := data.label
      value := data.value
      description := data.description
      emoji := data.emoji.map .emojiData
      default := none }
  { s with emoji := data.default.map .defaultFlag }

/-! ### ASGI endpoint (`wumpy/interactions/_asgi.py`) -/

/-- Per-instance configuration of `InteractionASGIApp` (`method` defaults
to POST and `path` to `/`). -/
structure ASGIConfig where
  method : String
  path : String

/-- The parts of an ASGI connection scope that the endpoint reads.  Header
names and values are byte strings, embedded as `String`. -/
structure ASGIScope where
  type : String
  path : String
  method : String
  headers : List (String × String)

/-- How `InteractionASGIApp.__call__` disposes of a request: an immediate
response with the given status, the synchronous `{"type": 1}` ping reply,
dispatch to `self.handle_interaction`, or the lifespan branch. -/
inductive ASGIOutcome where
  | responded (status : Nat)
  | pong
  | dispatched
  | lifespan
deriving DecidableEq

/-- `InteractionASGIApp._verify_request_target` (lines 39-77): non-`http`
scopes are answered 501, then a path mismatch is answered 404, then a
non-POST method is answered 405; otherwise fall through (`none`). -/
def _verify_request_target (cfg : ASGIConfig) (scope : ASGIScope) : Option Nat :=
  if scope.type ≠ "http" then some 501
  else if scope.path ≠ cfg.path then some 404
  else if scope.method ≠ "POST" then some 405
  else none

/-- The header loop of `_authenticate_request` (lines 87-95): walking
`scope['headers']` in order, return early (`none`) at a `content-type`
header that is not `application/json`, record the latest
`x-signature-timestamp` and (via `elif`) `x-signature-ed25519` values, and
otherwise deliver the final `(signature, timestamp)` accumulators. -/
def authHeaderScan :
    List (String × String) → Option String → Option String →
      Option (Option String × Option String)
  | [], signature, timestamp => some (signature, timestamp)
  | (header, value) :: rest, signature, timestamp =>
    if header = "content-type" ∧ value ≠ "application/json" then none
    else if header = "x-signature-timestamp" then
      authHeaderScan rest signature (some value)
    else if header = "x-signature-ed25519" then
      authHeaderScan rest (some value) timestamp
    else
      authHeaderScan rest signature timestamp

/-- `InteractionASGIApp._authenticate_request` (lines 79-110): run the
header loop; if it aborted or either signature header is missing, return
`(False, None)` without reading the body; otherwise read the full body and
check it with `self._app.authenticate_request` (an external primitive,
abstracted as the `verify` argument). -/
def _authenticate_request (verify : String → String → String → Bool)
    (headers : List (String × String)) (body : String) : Bool × Option String :=
  match authHeaderScan headers none none with
  | none => (false, none)
  | some (signature, timestamp) =>
    match signature, timestamp with
    | some s, some t => if verify s t body then (true, some body) else (false, some body)
    | some _, none => (false, none)
    | none, _ => (false, none)

/-- `InteractionASGIApp.__call__` (lines 132-168): the lifespan branch,
then `_verify_request_target`, then `_authenticate_request` (replying 401
when it fails or yields no body), then the decoded body's `type == 1` ping
short-circuit, and finally dispatch to `handle_interaction`.  `bodyType`
stands for `json.loads(body)['type']`. -/
def asgiAppCall (cfg : ASGIConfig) (verify : String → String → String → Bool)
    (scope : ASGIScope) (body : String) (bodyType : Nat) : ASGIOutcome :=
  if scope.type = "lifespan" then .lifespan
  else
    match _verify_request_target cfg scope with
    | some status => .responded status
    | none =>
      let auth := _authenticate_request verify scope.headers body
      if auth.1 = false ∨ auth.2 = none then .responded 401
      else if bodyType = 1 then .pong
      else .dispatched

/-! ### Context-menu commands (`src/wumpy/interactions/commands/context.py`) -/

/-- The model classes that appear as parameter annotations in this
component. -/
inductive PyClass where
  | commandInteraction
  | interactionUser
  | interactionMember
  | other (n : Nat)
deriving DecidableEq

/-- A Python runtime value as far as `isinstance` checks here are
concerned: a class object (what a type annotation evaluates to) or an
instance of a class. -/
inductive PyObject where
  | classObj (cls : PyClass)
  | instance (cls : PyClass)
deriving DecidableEq

/-- Python's `isinstance(obj, target)` for the flat model classes above: an
instance matches exactly its class, and a class object is an instance of
`type` only — never of `CommandInteraction`/`InteractionUser`/..., which
have no custom metaclass. -/
def PyObject.isinstance : PyObject → PyClass → Bool
  | .classObj _, _ => false
  | .instance cls, target => cls = target

/-- `ContextMenuCommand._set_callback` (lines 23-34): scan the callback's
parameter annotations in order, `continue` past any annotation that is an
`isinstance` of `CommandInteraction`, store the first remaining annotation
in `self.argument` and `break`.  `none` means no parameter matched and
`self.argument` keeps its `MISSING` default. -/
def ContextMenuCommand._set_callback_argument : List PyObject → Option PyObject
  | [] => none
  | ann :: rest =>
    if ann.isinstance .commandInteraction then
      ContextMenuCommand._set_callback_argument rest
    else
      some ann

/-- Outcome of `UserCommand.resolve_value`: the returned target (possibly
`None` when the id is not in `resolved.users`), or a raised
`CommandSetupError` with its message. -/
inductive ResolveResult where
  | ok (user : Option Nat)
  | setupError (msg : String)
deriving DecidableEq

/-- `UserCommand.resolve_value` (lines 69-81): raise a `CommandSetupError`
when `interaction.target_id` is falsy (absent or zero); then, only if
`isinstance(self.argument, InteractionUser)` holds, return
`interaction.resolved.users.get(interaction.target_id)`; otherwise raise a
`CommandSetupError`.  `argument` is `self.argument` as stored by
`_set_callback` (`none` embeds `MISSING`), and `resolvedUsers` is the
`resolved.users` mapping with users embedded as their ids. -/
def UserCommand.resolve_value (argument : Option PyObject) (target_id : Option Nat)
    (resolvedUsers : Nat → Option Nat) : ResolveResult :=
  match target_id with
  | none => .setupError "User command did not receive target ID."
  | some tid =>
    if tid = 0 then .setupError "User command did not receive target ID."
    else
      match argument with
      | some a =>
        if a.isinstance .interactionUser then .ok (resolvedUsers tid)
        else .setupError "User command's second argument incorrectly annotated"
      | none => .setupError "User command's second argument incorrectly annotated"

/-! ### Extensions (`wumpy/bot/_extension.py`)

Python dicts are embedded as association lists in insertion order (each key
occurring at most once): indexing finds the entry, assignment replaces an
existing entry in place or appends a new one at the end, and deletion
removes the entry.  Listener callbacks, commands and pattern-component
entries are opaque, embedded as naturals (Python compares them by object
identity). -/

/-- A Python dict as an insertion-ordered association list. -/
abbrev Dict (α : Type) : Type :=
  List (String × α)

/-- `d[k]` / `d.get(k)`: the value at the (unique) matching key. -/
def Dict.get {α : Type} : Dict α → String → Option α
  | [], _ => none
  | (key, value) :: rest, k => if key = k then some value else Dict.get rest k

/-- `d[k] = v`: replace in place, or append at the end for a new key. -/
def Dict.set {α : Type} : Dict α → String → α → Dict α
  | [], k, v => [(k, v)]
  | (key, value) :: rest, k, v =>
    if key = k then (k, v) :: rest else (key, value) :: Dict.set rest k v

/-- `del d[k]`: drop the matching entry (no-op when absent; every call
site below either guards the key or swallows `KeyError`). -/
def Dict.del {α : Type} : Dict α → String → Dict α
  | [], _ => []
  | (key, value) :: rest, k =>
    if key = k then rest else (key, value) :: Dict.del rest k

/-- `not d`: Python emptiness test. -/
def Dict.isEmpty {α : Type} : Dict α → Bool
  | [] => true
  | _ :: _ => false

/-- The storage shapes that `Extension.load`/`Extension.unload` mutate on
their target, exactly as accessed in `_extension.py`: the
`EventDispatcher._listeners` dict of per-event dicts of callback lists, the
`CommandRegistrar._commands` dict, and the `ComponentHandler`'s
`_regex_components` list. -/
structure RegistrarTarget where
  _listeners : Dict (Dict (List Nat))
  _commands : Dict Nat
  _regex_components : List Nat
deriving DecidableEq

/-- An `Extension`: it owns the same three storage shapes plus the `_data`
blob set on load and cleared on unload. -/
structure Extension where
  _listeners : Dict (Dict (List Nat))
  _commands : Dict Nat
  _regex_components : List Nat
  _data : Option Nat
deriving DecidableEq

/-- `Extension.load` (lines 53-98).  Listeners: for each of the extension's
event names, reuse the target's container for that name or insert a fresh
one; for each initializer, `extend` the target's existing callback list or
insert a copy of the extension's list.  Commands:
`target._commands.update(self._commands)` (last write wins).  Components:
`target._regex_components.extend(...)`.  Finally `self._data = data`.
Returns the updated target and extension. -/
def Extension.load (ext : Extension) (target : RegistrarTarget) (data : Nat) :
    RegistrarTarget × Extension :=
  let listeners := ext._listeners.foldl
    (fun acc nameEvents =>
      let container :=
        match Dict.get acc nameEvents.1 with
        | none => ([] : Dict (List Nat))
        | some c => c
      let container := nameEvents.2.foldl
        (fun c initCallbacks =>
          match Dict.get c initCallbacks.1 with
          | some registered => Dict.set c initCallbacks.1 (registered ++ initCallbacks.2)
          | none => Dict.set c initCallbacks.1 initCallbacks.2)
        container
      Dict.set acc nameEvents.1 container)
    target._listeners
  let commands := ext._commands.foldl
    (fun acc kv => Dict.set acc kv.1 kv.2) target._commands
  ({ _listeners := listeners
     _commands := commands
     _regex_components := target._regex_components ++ ext._regex_components },
    { ext with _data := some data })

/-- `Extension.unload` (lines 100-187).  Every removal attempt is wrapped
in `try`/`except`; a failure is chained onto `to_raise` and the loop
continues.  The embedding counts the failures (`errors`): looking up a
missing event container or initializer list, `list.remove` of an absent
callback or component.  For each of the extension's event names: remove
each of its callbacks (first occurrence) from the target's registered
list, delete the initializer entry if its list became empty, and delete
the event entry if its container became empty.  Commands are deleted with
`KeyError` explicitly passed; components are removed by first occurrence.
Finally `self._data = None`, and `to_raise` is raised if any failure was
recorded. -/
def Extension.unload (ext : Extension) (target : RegistrarTarget) :
    RegistrarTarget × Extension × Nat :=
  let step := ext._listeners.foldl
    (fun (acc : Dict (Dict (List Nat)) × Nat) nameEvents =>
      match Dict.get acc.1 nameEvents.1 with
      | none => (acc.1, acc.2 + 1)
      | some container =>
        let inner := nameEvents.2.foldl
          (fun (c : Dict (List Nat) × Nat) initCallbacks =>
            match Dict.get c.1 initCallbacks.1 with
            | none => (c.1, c.2 + 1)
            | some registered =>
              let removed := initCallbacks.2.foldl
                (fun (r : List Nat × Nat) cb =>
                  if cb ∈ r.1 then (r.1.erase cb, r.2) else (r.1, r.2 + 1))
                (registered, c.2)
              if removed.1.isEmpty then (Dict.del c.1 initCallbacks.1, removed.2)
              else (Dict.set c.1 initCallbacks.1 removed.1, removed.2))
          (container, acc.2)
        if inner.1.isEmpty then (Dict.del acc.1 nameEvents.1, inner.2)
        else (Dict.set acc.1 nameEvents.1 inner.1, inner.2))
    (target._listeners, 0)
  let commands := ext._commands.foldl
    (fun acc kv => Dict.del acc kv.1) target._commands
  let components := ext._regex_components.foldl
    (fun (r : List Nat × Nat) el =>
      if el ∈ r.1 then (r.1.erase el, r.2) else (r.1, r.2 + 1))
    (target._regex_components, step.2)
  ({ _listeners := step.1
     _commands := commands
     _regex_components := components.1 },
    { ext with _data := none },
    components.2)

/-! ## Helper lemmas -/

/-- Unfolding of the waiter loop at a cursor past the end of the list. -/
theorem handleInteractionWaiters_stop (i : Nat) (waiters : List Waiter) (cursor : Nat)
    (h : waiters[cursor]? = none) :
    handleInteractionWaiters i waiters cursor = (waiters, []) := by
  rw [handleInteractionWaiters]
  split
  · rfl
  · rename_i heq
    rw [h] at heq
    cases heq

/-- Unfolding of the waiter loop at a matching waiter: the waiter is popped
and the cursor still advances, stepping over the element that shifted into
its place. -/
theorem handleInteractionWaiters_hit (i : Nat) (waiters : List Waiter) (cursor : Nat)
    (w : Waiter) (h : waiters[cursor]? = some w) (hc : w.check i = true) :
    handleInteractionWaiters i waiters cursor =
      ((handleInteractionWaiters i (waiters.eraseIdx cursor) (cursor + 1)).1,
        w :: (handleInteractionWaiters i (waiters.eraseIdx cursor) (cursor + 1)).2) := by
  rw [handleInteractionWaiters]
  split
  · rename_i heq
    rw [h] at heq
    cases heq
  · rename_i w' heq
    rw [h] at heq
    cases heq
    simp [hc]

/-- Unfolding of the waiter loop at a non-matching waiter. -/
theorem handleInteractionWaiters_miss (i : Nat) (waiters : List Waiter) (cursor : Nat)
    (w : Waiter) (h : waiters[cursor]? = some w) (hc : w.check i = false) :
    handleInteractionWaiters i waiters cursor =
      handleInteractionWaiters i waiters (cursor + 1) := by
  rw [handleInteractionWaiters]
  split
  · rename_i heq
    rw [h] at heq
    cases heq
  · rename_i w' heq
    rw [h] at heq
    cases heq
    simp [hc]

/-- `_store_user` always hands back a user carrying the payload's id: the
reuse branch checks `user.id == data['id']` and the construction branch
builds the user from the payload. -/
theorem _store_user_fst_id (s : MemoryCacheState) (data : UserData) :
    (_store_user s data).1.id = data.id := by
  unfold _store_user
  cases h : s._users data.id with
  | none => rfl
  | some user =>
    by_cases hm : user.id = data.id ∧ user.name = data.username
        ∧ user.discriminator = data.discriminator
        ∧ user.public_flags = data.public_flags
    · simp [hm]
    · simp [hm]
      rfl

/-- `_store_user` never touches the member dict. -/
theorem _store_user_members (s : MemoryCacheState) (data : UserData) :
    (_store_user s data).2._members = s._members := by
  unfold _store_user
  cases h : s._users data.id with
  | none => rfl
  | some user =>
    by_cases hm : user.id = data.id ∧ user.name = data.username
        ∧ user.discriminator = data.discriminator
        ∧ user.public_flags = data.public_flags
    · simp [hm]
    · simp [hm]

/-- Assignment followed by lookup of the same key. -/
theorem dict_get_set {α : Type} (d : Dict α) (k : String) (v : α) :
    Dict.get (Dict.set d k v) k = some v := by
  induction d with
  | nil => simp [Dict.set, Dict.get]
  | cons kv rest ih =>
    by_cases hk : kv.1 = k
    · simp [Dict.set, hk, Dict.get]
    · simpa [Dict.set, hk, Dict.get] using ih

/-- Deleting a key that was freshly appended restores the dict. -/
theorem dict_del_set_of_get_none {α : Type} (d : Dict α) (k : String) (v : α)
    (h : Dict.get d k = none) :
    Dict.del (Dict.set d k v) k = d := by
  induction d with
  | nil => simp [Dict.set, Dict.del]
  | cons kv rest ih =>
    rw [Dict.get] at h
    by_cases hk : kv.1 = k
    · simp [hk] at h
    · rw [if_neg hk] at h
      rw [Dict.set, if_neg hk, Dict.del, if_neg hk, ih h]

/-- Re-assigning the value a key already holds is the identity. -/
theorem dict_set_of_get_some {α : Type} (d : Dict α) (k : String) (v : α)
    (h : Dict.get d k = some v) :
    Dict.set d k v = d := by
  induction d with
  | nil => simp [Dict.get] at h
  | cons kv rest ih =>
    rw [Dict.get] at h
    by_cases hk : kv.1 = k
    · rw [if_pos hk] at h
      cases h
      rw [Dict.set, if_pos hk, ← hk]
    · rw [if_neg hk] at h
      rw [Dict.set, if_neg hk, ih h]

/-- Two successive assignments to one key collapse to the last one. -/
theorem dict_set_set {α : Type} (d : Dict α) (k : String) (v w : α) :
    Dict.set (Dict.set d k v) k w = Dict.set d k w := by
  induction d with
  | nil => simp [Dict.set]
  | cons kv rest ih =>
    by_cases hk : kv.1 = k
    · simp [Dict.set, hk]
    · simp [Dict.set, hk, ih]

/-- A dict with a retrievable key is not empty. -/
theorem dict_not_isEmpty_of_get_some {α : Type} (d : Dict α) (k : String) (v : α)
    (h : Dict.get d k = some v) :
    d.isEmpty = false := by
  cases d with
  | nil => simp [Dict.get] at h
  | cons kv rest => rfl

/-- If no header is named `x-signature-ed25519`, the header loop can only
abort or finish with its signature accumulator still `None`. -/
theorem authHeaderScan_no_signature (headers : List (String × String))
    (hno : ∀ p ∈ headers, p.1 ≠ "x-signature-ed25519") (ts : Option String) :
    authHeaderScan headers none ts = none ∨
      ∃ t, authHeaderScan headers none ts = some (none, t) := by
  induction headers generalizing ts with
  | nil => exact Or.inr ⟨ts, rfl⟩
  | cons p rest ih =>
    have hp : p.1 ≠ "x-signature-ed25519" := hno p (List.mem_cons_self p rest)
    have hrest : ∀ q ∈ rest, q.1 ≠ "x-signature-ed25519" := fun q hq =>
      hno q (List.mem_cons_of_mem p hq)
    rw [authHeaderScan]
    by_cases hct : p.1 = "content-type" ∧ p.2 ≠ "application/json"
    · rw [if_pos hct]
      exact Or.inl rfl
    · rw [if_neg hct]
      by_cases hts : p.1 = "x-signature-timestamp"
      · rw [if_pos hts]
        exact ih hrest (some p.2)
      · rw [if_neg hts, if_neg hp]
        exact ih hrest ts

/-- If no header is named `x-signature-timestamp`, the header loop can only
abort or finish with its timestamp accumulator still `None`. -/
theorem authHeaderScan_no_timestamp (headers : List (String × String))
    (hno : ∀ p ∈ headers, p.1 ≠ "x-signature-timestamp") (sig : Option String) :
    authHeaderScan headers sig none = none ∨
      ∃ s, authHeaderScan headers sig none = some (s, none) := by
  induction headers generalizing sig with
  | nil => exact Or.inr ⟨sig, rfl⟩
  | cons p rest ih =>
    have hp : p.1 ≠ "x-signature-timestamp" := hno p (List.mem_cons_self p rest)
    have hrest : ∀ q ∈ rest, q.1 ≠ "x-signature-timestamp" := fun q hq =>
      hno q (List.mem_cons_of_mem p hq)
    rw [authHeaderScan]
    by_cases hct : p.1 = "content-type" ∧ p.2 ≠ "application/json"
    · rw [if_pos hct]
      exact Or.inl rfl
    · rw [if_neg hct, if_neg hp]
      by_cases hsig : p.1 = "x-signature-ed25519"
      · rw [if_pos hsig]
        exact ih hrest (some p.2)
      · rw [if_neg hsig]
        exact ih hrest sig

/-- A request missing either signature header fails authentication with no
body, whatever the verification primitive says. -/
theorem _authenticate_request_missing_header
    (verify : String → String → String → Bool)
    (headers : List (String × String)) (body : String)
    (hmiss : (∀ p ∈ headers, p.1 ≠ "x-signature-ed25519") ∨
      (∀ p ∈ headers, p.1 ≠ "x-signature-timestamp")) :
    _authenticate_request verify headers body = (false, none) := by
  unfold _authenticate_request
  rcases hmiss with hsig | hts
  · rcases authHeaderScan_no_signature headers hsig none with h | ⟨t, h⟩
    · rw [h]
    · rw [h]
  · rcases authHeaderScan_no_timestamp headers hts none with h | ⟨s, h⟩
    · rw [h]
    · rw [h]
      cases s <;> rfl


/-! ## Claims -/

/-- C1: the claim says a `SubcommandGroup` invoked with a list of options
containing a subcommand-typed option looks up that option's *name* among
its registered subcommands and recursively invokes the match.  Evaluating
the code at a group with subcommand "remove" registered and a well-formed
payload option (name "remove", type subcommand, no scalar value — per
`CommandInteractionOption`'s documented shape `value` is absent for
subcommand options) shows `_inner_call` instead looks up `found[0].value`,
i.e. `None`, and raises `LookupError` rather than invoking "remove"; the
no-subcommand-option conjunct of the claim does hold (`ValueError`). -/
theorem C1_subcommand_routing_uses_value_not_name :
    (SlashCommand.group "math"
        [("remove", SlashCommand.command (some "remove"))]).invoke
      [CommandInteractionOption.mk "remove" ApplicationCommandOption.subcommand none
        [CommandInteractionOption.mk "n" ApplicationCommandOption.integer (some "5") []]]
      = InvokeResult.notFound ∧
    (SlashCommand.group "math"
        [("remove", SlashCommand.command (some "remove"))]).invoke
      [CommandInteractionOption.mk "n" ApplicationCommandOption.integer (some "5") []]
      = InvokeResult.invalidInput :=
  ⟨rfl, rfl⟩

/-- C2: the claim says `handle_interaction` resolves and removes every
waiter whose predicate accepts the interaction and skips none.  Evaluating
the waiter loop on two waiters that both accept shows the first is resolved
and popped, after which the iterator steps over the second: only waiter 1
is resolved, and waiter 2 — whose predicate accepts — is left pending and
never checked. -/
theorem C2_handle_interaction_skips_waiter_after_removed :
    handleInteractionWaiters 0 [⟨fun _ => true, 1⟩, ⟨fun _ => true, 2⟩] 0 =
      ([⟨fun _ => true, 2⟩], [⟨fun _ => true, 1⟩]) := by
  rw [handleInteractionWaiters_hit 0 _ 0 ⟨fun _ => true, 1⟩ rfl rfl]
  rw [show ([⟨fun _ => true, 1⟩, ⟨fun _ => true, 2⟩] : List Waiter).eraseIdx 0 =
    [⟨fun _ => true, 2⟩] from rfl]
  rw [handleInteractionWaiters_stop 0 _ 1 rfl]

/-- C3: the claim says a timed-out wait removes its waiter from the pending
list so a later `handle_interaction` cannot resolve that slot.  Evaluating
the code's state changes — `__call__` appends the waiter and the timeout
error propagates with no removal — shows the waiter is still pending after
the timeout, and a subsequent `handle_interaction` whose predicate accepts
resolves exactly that stale slot. -/
theorem C3_timeout_leaves_waiter_pending :
    (componentCallOnTimeout (componentCallRegister ⟨[]⟩ ⟨fun _ => true, 5⟩))._waiters =
      [⟨fun _ => true, 5⟩] ∧
    handleInteractionWaiters 9
      (componentCallOnTimeout (componentCallRegister ⟨[]⟩ ⟨fun _ => true, 5⟩))._waiters 0 =
      ([], [⟨fun _ => true, 5⟩]) := by
  refine ⟨rfl, ?_⟩
  rw [handleInteractionWaiters_hit 9 _ 0 ⟨fun _ => true, 5⟩ rfl rfl]
  rw [handleInteractionWaiters_stop 9 _ 1 rfl]
  rfl

/-- C6: a `respond` call supplying only `content` serializes to type 4 with
a `data` object holding exactly the `content` key, and additionally
supplying `ephemeral=True` adds `flags = 64` and nothing else. -/
theorem C6_respond_omits_unset_fields (content : String) :
    Interaction.respond (some content) none none none none none =
      { type := 4, data := [("content", .str content)] } ∧
    Interaction.respond (some content) none none none (some true) none =
      { type := 4, data := [("content", .str content), ("flags", .num 64)] } :=
  ⟨rfl, rfl⟩

/-- C9: the claim says `UserCommand.resolve_value` returns the resolved
user when the stored second-argument annotation is the user kind.
Evaluating the code at a correctly annotated callback
`(interaction: CommandInteraction, user: InteractionUser)` shows two
failures: `_set_callback` stores the *first* parameter's annotation
(because `isinstance(annotation, CommandInteraction)` is false for the
class object, so the skip never happens), and `resolve_value` raises
`CommandSetupError` even with the `InteractionUser` annotation stored,
because `isinstance(self.argument, InteractionUser)` is likewise false for
a class object — the target id is present and resolves to user 42, yet no
branch ever returns it. -/
theorem C9_user_command_always_raises_for_class_annotations :
    ContextMenuCommand._set_callback_argument
        [.classObj .commandInteraction, .classObj .interactionUser] =
      some (.classObj .commandInteraction) ∧
    UserCommand.resolve_value
        (ContextMenuCommand._set_callback_argument
          [.classObj .commandInteraction, .classObj .interactionUser])
        (some 1) (fun k => if k = 1 then some 42 else none) =
      .setupError "User command's second argument incorrectly annotated" ∧
    UserCommand.resolve_value (some (.classObj .interactionUser)) (some 1)
        (fun k => if k = 1 then some 42 else none) =
      .setupError "User command's second argument incorrectly annotated" :=
  ⟨rfl, rfl, rfl⟩

/-- C10: the claim says a constructed `SelectInteractionValue` has its
`emoji` field equal to the payload's emoji entry and its `default` field
equal to the payload's default flag.  Evaluating `__init__` at a payload
with both entries present shows the `emoji` slot ends up holding the
payload's *default flag* (line 116 assigns `data.get('default')` to
`self.emoji`), not the emoji entry, and the `default` slot is never
assigned at all. -/
theorem C10_select_value_misassigns_emoji_and_default :
    (SelectInteractionValue.init ⟨"lbl", "val", none, some 7, some true⟩).emoji =
      some (.defaultFlag true) ∧
    (SelectInteractionValue.init ⟨"lbl", "val", none, some 7, some true⟩).emoji ≠
      some (.emojiData 7) ∧
    (SelectInteractionValue.init ⟨"lbl", "val", none, some 7, some true⟩).default = none :=
  ⟨rfl, by decide, rfl⟩

/-- C4: `_store_user` returns the already-cached instance unchanged when
its id, name, discriminator and public flags all match the payload, and
otherwise (any field differing, or no user cached under the payload's id)
constructs `User.from_data(data)` — a user distinct from any mismatched
cached one — stores it under the same id and returns it. -/
theorem C4_store_user_identity_reuse (s : MemoryCacheState) (data : UserData) :
    (∀ user, s._users data.id = some user →
      ((user.id = data.id ∧ user.name = data.username
          ∧ user.discriminator = data.discriminator
          ∧ user.public_flags = data.public_flags) →
        _store_user s data = (user, s)) ∧
      (¬ (user.id = data.id ∧ user.name = data.username
          ∧ user.discriminator = data.discriminator
          ∧ user.public_flags = data.public_flags) →
        (_store_user s data).1 = User.from_data data ∧
        (_store_user s data).1 ≠ user ∧
        (_store_user s data).2._users data.id = some (_store_user s data).1)) ∧
    (s._users data.id = none →
      (_store_user s data).1 = User.from_data data ∧
      (_store_user s data).2._users data.id = some (_store_user s data).1) := by
  unfold _store_user
  constructor
  · intro user hu
    rw [hu]
    constructor
    · intro hm
      simp only [if_pos hm]
    · intro hm
      simp only [if_neg hm]
      refine ⟨by trivial, ?_, by simp⟩
      intro heq
      apply hm
      rw [← heq]
      exact ⟨rfl, rfl, rfl, rfl⟩
  · intro hu
    rw [hu]
    exact ⟨rfl, by simp⟩

/-- C4 witness: a cache holding user 1 with matching fields hands back that
instance with the state untouched. -/
theorem C4_store_user_identity_reuse_witness :
    _store_user
        ⟨fun k => if k = 1 then some ⟨1, "ab", "0001", some 0⟩ else none, fun _ => none⟩
        ⟨1, "ab", "0001", some 0⟩ =
      (⟨1, "ab", "0001", some 0⟩,
        ⟨fun k => if k = 1 then some ⟨1, "ab", "0001", some 0⟩ else none, fun _ => none⟩) :=
  ((C4_store_user_identity_reuse _ _).1 ⟨1, "ab", "0001", some 0⟩ rfl).1
    ⟨rfl, rfl, rfl, rfl⟩

/-- C5: after a guild-member-add with guild id `G`, `get_member(G, U)`
returns the member the handler constructed and stored, while
`get_member(G, U2)` for any other user id not otherwise cached for `G`
stays absent. -/
theorem C5_member_add_then_get (s : MemoryCacheState) (data : GuildMemberData)
    (G U2 : Nat) (hG : data.guild_id = some G) (hU2 : U2 ≠ data.user.id)
    (habsent : s._members (G, U2) = none) :
    ∀ pm m s', _process_guild_member_add s data = .ok ((pm, m), s') →
      get_member s' G data.user.id = some m ∧ get_member s' G U2 = none := by
  intro pm m s' hadd
  rw [_process_guild_member_add, hG] at hadd
  cases hadd
  have hid : (Member.from_user (_store_user s data.user).1 data).id = data.user.id :=
    _store_user_fst_id s data.user
  constructor
  · simp [get_member, hid]
  · simp only [get_member]
    rw [if_neg (by simp [hid, hU2]), _store_user_members]
    exact habsent

/-- C5 witness: adding user 3 to guild 10 on an empty cache makes
`get_member 10 3` return the stored member and leaves `get_member 10 4`
absent. -/
theorem C5_member_add_then_get_witness :
    get_member
        { _users := fun k =>
            if k = 3 then some ⟨3, "bob", "0001", none⟩
            else (fun _ => (none : Option User)) k
          _members := fun k =>
            if k = (10, 3) then some ⟨⟨3, "bob", "0001", none⟩, none⟩
            else (fun _ => (none : Option Member)) k }
        10 3 = some ⟨⟨3, "bob", "0001", none⟩, none⟩ ∧
    get_member
        { _users := fun k =>
            if k = 3 then some ⟨3, "bob", "0001", none⟩
            else (fun _ => (none : Option User)) k
          _members := fun k =>
            if k = (10, 3) then some ⟨⟨3, "bob", "0001", none⟩, none⟩
            else (fun _ => (none : Option Member)) k }
        10 4 = none :=
  C5_member_add_then_get ⟨fun _ => none, fun _ => none⟩
    ⟨some 10, ⟨3, "bob", "0001", none⟩, none⟩ 10 4 rfl (by decide) rfl
    none ⟨⟨3, "bob", "0001", none⟩, none⟩ _ rfl

/-- C8: on an `http` scope, a path mismatch is answered 404 before the
method is ever consulted; and a request to the configured path with method
POST whose headers lack `x-signature-ed25519` or `x-signature-timestamp`
is answered 401, whatever the verification primitive or body. -/
theorem C8_asgi_gating (cfg : ASGIConfig) (verify : String → String → String → Bool)
    (scope : ASGIScope) (body : String) (bodyType : Nat)
    (htype : scope.type = "http") :
    (scope.path ≠ cfg.path →
      asgiAppCall cfg verify scope body bodyType = .responded 404) ∧
    (scope.path = cfg.path → scope.method = "POST" →
      ((∀ p ∈ scope.headers, p.1 ≠ "x-signature-ed25519") ∨
        (∀ p ∈ scope.headers, p.1 ≠ "x-signature-timestamp")) →
      asgiAppCall cfg verify scope body bodyType = .responded 401) := by
  constructor
  · intro hpath
    rw [asgiAppCall, if_neg (by rw [htype]; decide),
      _verify_request_target, if_neg (by rw [htype]; decide), if_pos hpath]
  · intro hpath hmethod hmiss
    rw [asgiAppCall, if_neg (by rw [htype]; decide),
      _verify_request_target, if_neg (by rw [htype]; decide),
      if_neg (by rw [hpath]; exact fun h => h rfl),
      if_neg (by rw [hmethod]; exact fun h => h rfl),
      _authenticate_request_missing_header verify scope.headers body hmiss]
    rfl

/-- C8 witness: with the default POST-to-`/` configuration, a GET request
to `/wrong` is answered 404 and a POST to `/` without signature headers is
answered 401. -/
theorem C8_asgi_gating_witness :
    asgiAppCall ⟨"POST", "/"⟩ (fun _ _ _ => true)
        ⟨"http", "/wrong", "GET", []⟩ "" 2 = .responded 404 ∧
    asgiAppCall ⟨"POST", "/"⟩ (fun _ _ _ => true)
        ⟨"http", "/", "POST", [("content-type", "application/json")]⟩ "" 2 =
      .responded 401 :=
  ⟨(C8_asgi_gating ⟨"POST", "/"⟩ (fun _ _ _ => true)
      ⟨"http", "/wrong", "GET", []⟩ "" 2 rfl).1 (by decide),
    (C8_asgi_gating ⟨"POST", "/"⟩ (fun _ _ _ => true)
      ⟨"http", "/", "POST", [("content-type", "application/json")]⟩ "" 2 rfl).2
      rfl rfl (Or.inl (by decide))⟩

/-- C7 counterexample: the claim quantifies over every target whose
mappings do not already contain the extension's entries.  A target whose
listener mapping holds a pre-existing *empty* container under the
extension's event name ("ready" ↦ {}) contains neither the extension's
listener nor its command, yet unload's emptiness cleanup deletes the
"ready" key that existed before the load: the round trip ends with an
empty listener mapping instead of the original one. -/
theorem C7_load_unload_counterexample :
    ((Extension.load ⟨[("ready", [("app", [7])])], [("ping", 1)], [], none⟩
        ⟨[("ready", [])], [], []⟩ 0).2.unload
      (Extension.load ⟨[("ready", [("app", [7])])], [("ping", 1)], [], none⟩
        ⟨[("ready", [])], [], []⟩ 0).1).1._listeners = [] ∧
    (⟨[("ready", [])], [], []⟩ : RegistrarTarget)._listeners = [("ready", [])] ∧
    ([] : Dict (Dict (List Nat))) ≠ [("ready", [])] := by
  refine ⟨rfl, rfl, ?_⟩
  decide

/-- C7 (amended): load-then-unload restores the target's listener and
command mappings exactly, for an extension registering one listener and
one command, provided — beyond the claim's own hypothesis that the target
does not already contain the registered entries — every container already
present on the extension's listener path is nonempty (a present event
container is a nonempty dict; a present initializer entry is a nonempty
callback list). -/
theorem C7_load_unload_round_trip (target : RegistrarTarget)
    (ev init cname : String) (cb cmd blob : Nat)
    (hcmd : Dict.get target._commands cname = none)
    (hlist : Dict.get target._listeners ev = none ∨
      ∃ c, Dict.get target._listeners ev = some c ∧ c.isEmpty = false ∧
        (Dict.get c init = none ∨
          ∃ l, Dict.get c init = some l ∧ l.isEmpty = false ∧ cb ∉ l)) :
    ((Extension.load ⟨[(ev, [(init, [cb])])], [(cname, cmd)], [], none⟩ target blob).2.unload
        (Extension.load ⟨[(ev, [(init, [cb])])], [(cname, cmd)], [], none⟩ target blob).1).1._listeners
      = target._listeners ∧
    ((Extension.load ⟨[(ev, [(init, [cb])])], [(cname, cmd)], [], none⟩ target blob).2.unload
        (Extension.load ⟨[(ev, [(init, [cb])])], [(cname, cmd)], [], none⟩ target blob).1).1._commands
      = target._commands := by
  have hfull :
      ((Extension.load ⟨[(ev, [(init, [cb])])], [(cname, cmd)], [], none⟩ target blob).2.unload
        (Extension.load ⟨[(ev, [(init, [cb])])], [(cname, cmd)], [], none⟩ target blob).1).1
      = { target with _regex_components := target._regex_components ++ [] } := by
    rcases hlist with h1 | ⟨c, hc, hcne, hinner⟩
    · have e1 : (Extension.load ⟨[(ev, [(init, [cb])])], [(cname, cmd)], [], none⟩ target blob) =
          ({ _listeners := Dict.set target._listeners ev [(init, [cb])]
             _commands := Dict.set target._commands cname cmd
             _regex_components := target._regex_components ++ [] },
            ⟨[(ev, [(init, [cb])])], [(cname, cmd)], [], some blob⟩) := by
        simp only [Extension.load, List.foldl, h1, Dict.get, Dict.set]
      rw [e1]
      simp only [Extension.unload, List.foldl, dict_get_set]
      simp [Dict.get, Dict.del, Dict.isEmpty, dict_del_set_of_get_none _ _ _ h1,
        dict_del_set_of_get_none _ _ _ hcmd]
    · rcases hinner with hi | ⟨l, hi, hlne, hmem⟩
      · have e1 : (Extension.load ⟨[(ev, [(init, [cb])])], [(cname, cmd)], [], none⟩ target blob) =
            ({ _listeners := Dict.set target._listeners ev (Dict.set c init [cb])
               _commands := Dict.set target._commands cname cmd
               _regex_components := target._regex_components ++ [] },
              ⟨[(ev, [(init, [cb])])], [(cname, cmd)], [], some blob⟩) := by
          simp only [Extension.load, List.foldl, hc, hi]
        rw [e1]
        simp only [Extension.unload, List.foldl, dict_get_set]
        simp only [List.foldl, List.mem_singleton, if_pos (Eq.refl cb),
          List.erase_cons_head, List.isEmpty, dict_del_set_of_get_none _ _ _ hi, hcne,
          Bool.false_eq_true, if_false, if_true, dict_set_set,
          dict_set_of_get_some _ _ _ hc, dict_del_set_of_get_none _ _ _ hcmd]
      · have e1 : (Extension.load ⟨[(ev, [(init, [cb])])], [(cname, cmd)], [], none⟩ target blob) =
            ({ _listeners := Dict.set target._listeners ev (Dict.set c init (l ++ [cb]))
               _commands := Dict.set target._commands cname cmd
               _regex_components := target._regex_components ++ [] },
              ⟨[(ev, [(init, [cb])])], [(cname, cmd)], [], some blob⟩) := by
          simp only [Extension.load, List.foldl, hc, hi]
        have herase : (l ++ [cb]).erase cb = l := by
          rw [List.erase_append_right _ hmem, List.erase_cons_head, List.append_nil]
        have hmem2 : cb ∈ l ++ [cb] := List.mem_append_right _ (List.mem_singleton.mpr rfl)
        rw [e1]
        simp only [Extension.unload, List.foldl, dict_get_set]
        simp only [if_pos hmem2, herase, hlne, dict_set_set,
          dict_set_of_get_some _ _ _ hi, dict_set_of_get_some _ _ _ hc,
          dict_del_set_of_get_none _ _ _ hcmd,
          dict_not_isEmpty_of_get_some _ _ _ hi]
        simp [hlne, dict_not_isEmpty_of_get_some c init l hi, dict_set_of_get_some _ _ _ hc]
  exact ⟨by rw [hfull], by rw [hfull]⟩

/-- C7 witness: an empty target gains the "ready"/"app" listener and the
"ping" command on load and is restored exactly on unload. -/
theorem C7_load_unload_round_trip_witness :
    ((Extension.load ⟨[("ready", [("app", [7])])], [("ping", 1)], [], none⟩
        ⟨[], [("pong", 2)], [5]⟩ 0).2.unload
      (Extension.load ⟨[("ready", [("app", [7])])], [("ping", 1)], [], none⟩
        ⟨[], [("pong", 2)], [5]⟩ 0).1).1._listeners = ([] : Dict (Dict (List Nat))) ∧
    ((Extension.load ⟨[("ready", [("app", [7])])], [("ping", 1)], [], none⟩
        ⟨[], [("pong", 2)], [5]⟩ 0).2.unload
      (Extension.load ⟨[("ready", [("app", [7])])], [("ping", 1)], [], none⟩
        ⟨[], [("pong", 2)], [5]⟩ 0).1).1._commands = [("pong", 2)] :=
  C7_load_unload_round_trip ⟨[], [("pong", 2)], [5]⟩ "ready" "app" "ping" 7 1 0
    (by decide) (Or.inl (by decide))

end Wumpy
